import Mathlib

/-!
A verification development for the PatientDB backend's RAG service
(`backend/app/services/rag_service.py`).  The Python code is shallowly
embedded: Python strings are `String` / `List Char`, Python floats are
modelled as rationals (every arithmetic operation involved, `1 - distance`,
is exact), `None`-able values are `Option`, and code that may raise is
`Except Unit`.  The unbounded `while` loop of `RAGService._chunk_text` is
embedded with explicit fuel, so that its behaviour on unguarded parameters
(`overlap >= chunk_size`) is itself provable.
-/

namespace PatientDB

/-- The character class that `_chunk_text` replaces by a space:
the regex `[\x00-\x08\x0b\x0c\x0e-\x1f]` (rag_service.py line 70). -/
def isStrippedCtrl (c : Char) : Bool :=
  decide (c.toNat ≤ 8 ∨ c.toNat = 11 ∨ c.toNat = 12 ∨ (14 ≤ c.toNat ∧ c.toNat ≤ 31))

/-- The whitespace class of Python's `str.strip()` (default argument):
ASCII whitespace, the C1 and Unicode space characters. -/
def isPySpace (c : Char) : Bool :=
  decide (c.toNat = 9 ∨ c.toNat = 10 ∨ c.toNat = 11 ∨ c.toNat = 12 ∨ c.toNat = 13 ∨
    (28 ≤ c.toNat ∧ c.toNat ≤ 32) ∨ c.toNat = 133 ∨ c.toNat = 160 ∨
    c.toNat = 0x1680 ∨ (0x2000 ≤ c.toNat ∧ c.toNat ≤ 0x200a) ∨
    c.toNat = 0x2028 ∨ c.toNat = 0x2029 ∨ c.toNat = 0x202f ∨ c.toNat = 0x205f ∨
    c.toNat = 0x3000)

/-- Python `s.strip()`: drop leading and trailing whitespace. -/
def pyStrip (s : List Char) : List Char :=
  ((s.dropWhile isPySpace).reverse.dropWhile isPySpace).reverse

/-- `safe_text = re.sub(r"[\x00-\x08\x0b\x0c\x0e-\x1f]", " ", text or "").strip()`
(rag_service.py line 70). -/
def sanitizeChunkInput (text : List Char) : List Char :=
  pyStrip (text.map fun c => if isStrippedCtrl c then ' ' else c)

/-- The `while start < length` loop of `_chunk_text` (rag_service.py lines
76-81), with explicit fuel: each loop iteration consumes one unit, `none`
means the fuel ran out before the loop finished.  Per iteration:
`end = min(start + chunk_size, length)`, append `safe_text[start:end]`,
break when `end == length`, else `start = max(0, end - overlap)` (truncated
`Nat` subtraction is exactly Python's `max(0, ...)` here). -/
def chunkLoop (s : List Char) (size overlap : Nat) : Nat → Nat → Option (List (List Char))
  | 0, _ => none
  | fuel + 1, start =>
    if start < s.length then
      let e := min (start + size) s.length
      let c := (s.drop start).take (e - start)
      if e = s.length then some [c]
      else
        match chunkLoop s size overlap fuel (e - overlap) with
        | none => none
        | some rest => some (c :: rest)
    else some []

/-- `RAGService._chunk_text` (rag_service.py lines 69-82).  The loop is run
with fuel `length + 1`, which a lemma below shows is enough whenever
`overlap < size`; a `none` result embeds the Python loop running past that
many iterations (it then never terminates, since its start position is
non-increasing once it fails to advance). -/
def chunkText (text : List Char) (size overlap : Nat) : Option (List (List Char)) :=
  let s := sanitizeChunkInput text
  if s.isEmpty then some []
  else chunkLoop s size overlap (s.length + 1) 0

/-- `_chunk_text` on `String`s. -/
def chunkTextS (text : String) (size overlap : Nat) : Option (List String) :=
  (chunkText text.data size overlap).map (List.map List.asString)

/-- Reassembly of a chunk list: keep the first chunk whole and strip the
first `overlap` characters of every later chunk, then concatenate (the
spec's "concatenating the chunks ... with the first overlap characters of
every chunk after the first removed"). -/
def reassemble (overlap : Nat) : List (List Char) → List Char
  | [] => []
  | c :: cs => c ++ (cs.map fun l => l.drop overlap).flatten

/-- A retrieval hit as `_query_collection` and `_sql_fallback` build it:
`content`, `metadata` (the scalar string mapping involved in the claims)
and `similarity_score`, a Python float modelled as a rational (the only
arithmetic performed on it, `1 - distance`, is exact). -/
structure Hit where
  content : String
  metadata : List (String × String)
  similarity_score : ℚ
deriving DecidableEq, Repr

/-- One row of `DatabaseService.get_all_patients()`, with the fields
`_sql_fallback` and `refresh_vector_store` read; `diagnosis` and
`prescription` are nullable (`Optional[str]`). -/
structure Patient where
  id : String
  name : String
  date_of_birth : String
  diagnosis : Option String
  prescription : Option String
deriving DecidableEq, Repr

/-- Python truthiness of an optional string (`if upload_batch_id:`,
`if patient_data.get("name"):`): `None` and `""` are falsy. -/
def pyTruthy : Option String → Bool
  | none => false
  | some s => decide (s ≠ "")

/-- Python `str.lower()` on the ASCII range (all inputs in this
development are ASCII; `Char.toLower` agrees with Python there). -/
def pyLower (s : String) : String := (s.data.map Char.toLower).asString

/-- Python `sep.join(parts)`. -/
def pyJoin (sep : String) : List String → String
  | [] => ""
  | [x] => x
  | x :: xs => x ++ sep ++ pyJoin sep xs

/-- `RAGService._create_patient_text` (rag_service.py lines 109-121): the
truthy fields, labelled, joined with " | "; `raw_text` defaults to None. -/
def createPatientText (name dob : String) (diagnosis prescription rawText : Option String) :
    String :=
  pyJoin " | "
    ((if pyTruthy (some name) then ["Patient Name: " ++ name] else []) ++
     (if pyTruthy (some dob) then ["Date of Birth: " ++ dob] else []) ++
     (if pyTruthy diagnosis then ["Diagnosis: " ++ diagnosis.getD ""] else []) ++
     (if pyTruthy prescription then ["Prescription: " ++ prescription.getD ""] else []) ++
     (if pyTruthy rawText then ["Details: " ++ rawText.getD ""] else []))

/-- The validated reply of one chroma collection query as
`_query_collection` reads it (lines 195-198): `documents[0]`,
`metadatas[0]`, `distances[0]`, an absent or `None` entry read as `[]`.
Distances are the store's cosine distances, modelled as rationals. -/
structure QueryResults where
  documents : List String
  metadatas : List (List (String × String))
  distances : List ℚ
deriving DecidableEq, Repr

/-- `RAGService._query_collection` (lines 192-207): one hit per document,
metadata defaulting to the empty mapping and distance to 0.5 where the
parallel list is shorter, `similarity_score = 1 - distance`. -/
def queryCollectionHits (r : QueryResults) : List Hit :=
  (List.range r.documents.length).map fun i =>
    { content := r.documents.getD i ""
      metadata := r.metadatas.getD i []
      similarity_score := 1 - r.distances.getD i (1/2) }

/-- Stable insertion step for the descending sort by similarity score. -/
def insertDesc (a : Hit) : List Hit → List Hit
  | [] => [a]
  | b :: bs =>
    if b.similarity_score > a.similarity_score then b :: insertDesc a bs else a :: b :: bs

/-- A stable descending sort by `similarity_score`, the embedding of
Python's stable `sorted(scored, key=lambda x: x["similarity_score"],
reverse=True)` in `_sql_fallback` (line 255); on the lists `_sql_fallback`
builds every kept score is 1.0, where every stable sort is the identity. -/
def sortByScoreDesc : List Hit → List Hit
  | [] => []
  | a :: rest => insertDesc a (sortByScoreDesc rest)

/-- The haystack `_sql_fallback` scans (line 240):
`" ".join(filter(None, [p.name, p.date_of_birth, p.diagnosis or "", p.prescription or ""]))`. -/
def patientHaystack (p : Patient) : String :=
  pyJoin " "
    ([p.name, p.date_of_birth, p.diagnosis.getD "", p.prescription.getD ""].filter
      fun s => decide (s ≠ ""))

/-- Python's substring test `needle in hay`, by structural recursion on
the haystack (a lemma below shows it decides `List.IsInfix`). -/
def containsSeg : (needle hay : List Char) → Bool
  | needle, [] => needle.isPrefixOf []
  | needle, b :: t => needle.isPrefixOf (b :: t) || containsSeg needle t

/-- The binary match of `_sql_fallback` (lines 237-241): the lower-cased
query is a substring of the lower-cased haystack. -/
def keywordMatch (query : String) (p : Patient) : Bool :=
  containsSeg (pyLower query).data (pyLower (patientHaystack p)).data

/-- The hit `_sql_fallback` appends for a matching patient (lines 242-253). -/
def keywordHit (p : Patient) : Hit :=
  { content := createPatientText p.name p.date_of_birth p.diagnosis p.prescription none
    metadata := [("patient_id", p.id), ("name", p.name), ("type", "patient_record")]
    similarity_score := 1 }

/-- `RAGService._sql_fallback` (lines 232-260): score each patient 1.0 on a
lower-cased substring match over the concatenated fields else 0.0, keep
the positive scores, stable-sort descending by score, truncate to `top_k`. -/
def sqlFallback (patients : List Patient) (query : String) (topK : Nat) : List Hit :=
  let scored := patients.filterMap fun p =>
    let score : ℚ := if keywordMatch query p then 1 else 0
    if score > 0 then
      some { content := createPatientText p.name p.date_of_birth p.diagnosis p.prescription none
             metadata := [("patient_id", p.id), ("name", p.name), ("type", "patient_record")]
             similarity_score := score }
    else none
  (sortByScoreDesc scored).take topK

/-- The `RAGService` state one embedded call sees: whether the constructor
found a local encoder and/or a remote embedder, the embedding call
(`_embed_texts`, which may raise), the two chroma collection queries
(which may raise; the nearest-neighbour search itself is the external
store of spec section 6), and the relational store's rows. -/
structure RAGServiceState where
  encoderAvailable : Bool
  remoteEmbedderAvailable : Bool
  embedTexts : List String → Except Unit (List (List ℚ))
  stagingQuery : List ℚ → Nat → Except Unit QueryResults
  durableQuery : List ℚ → Nat → Except Unit QueryResults
  patients : List Patient

/-- `self.encoder is None and self.remote_embedder is None`, the guard of
lines 138, 167 and 212. -/
def RAGServiceState.noProvider (svc : RAGServiceState) : Bool :=
  !svc.encoderAvailable && !svc.remoteEmbedderAvailable

/-- `RAGService.search_similar_patients` (lines 209-230).  The enclosing
`try/except` turns any exception - a failing embedding call, an empty
embedding list making `[0]` raise IndexError, or a failing collection
query - into the return value `[]`. -/
def searchSimilarPatients (svc : RAGServiceState) (query : String) (topK : Nat)
    (uploadBatchId : Option String) : List Hit :=
  if svc.noProvider then sqlFallback svc.patients query topK
  else
    match svc.embedTexts [query] with
    | .error _ => []
    | .ok [] => []
    | .ok (queryEmbedding :: _) =>
      match (if pyTruthy uploadBatchId then
          (svc.stagingQuery queryEmbedding topK).map queryCollectionHits
        else .ok []) with
      | .error _ => []
      | .ok stagingHits =>
        match svc.durableQuery queryEmbedding topK with
        | .error _ => []
        | .ok durableRes =>
          let results := stagingHits ++ queryCollectionHits durableRes
          let results := if results.isEmpty then sqlFallback svc.patients query topK
            else results
          results.take topK

/-- The per-hit label of the context block `generate_rag_response` builds
(line 267): `Record {i+1} ({metadata.get('type','unknown')}): {content}`. -/
def recordLabel (i : Nat) (h : Hit) : String :=
  "Record " ++ toString (i + 1) ++ " (" ++ ((h.metadata.lookup "type").getD "unknown") ++
    "): " ++ h.content

/-- The context block of `generate_rag_response` (lines 266-269): the
labelled hits joined with a double newline; the empty hit list joins
to the empty string. -/
def assembleContext (hits : List Hit) : String :=
  pyJoin "\x0a\x0a" (hits.enum.map fun ia => recordLabel ia.1 ia.2)

/-- A scalar metadata value the underlying store accepts (str, int, float,
bool, None); `_sanitize_metadata` (lines 123-133) serializes anything else
to a string, so every stored value is such a scalar.  The metadata this
service builds holds only strings and ints. -/
inductive MetaValue
  | str (s : String)
  | int (n : Int)
deriving DecidableEq, Repr

/-- The unit stored in a chroma collection by `collection.add`:
id, document text, sanitized metadata and embedding vector. -/
structure IndexEntry where
  id : String
  document : String
  metadata : List (String × MetaValue)
  embedding : List ℚ
deriving DecidableEq, Repr

/-- The two collections `RAGService.__init__` opens: `patient_data`
(durable) and `patient_data_staging`. -/
structure VectorStores where
  patientData : List IndexEntry
  patientDataStaging : List IndexEntry
deriving DecidableEq, Repr

/-- `RAGService.add_patient_to_vector_store` (lines 135-162): with no
embedding provider it logs a warning and returns with the collections
untouched; otherwise it chunks the patient text (800/100), embeds the
chunks, and appends one entry per chunk to the durable collection.  A
failing embedding call re-raises out of the logging `except` (`.error`);
the `none` chunking branch embeds a diverging chunk walk, unreachable at
the fixed 800/100 parameters. -/
def addPatientToVectorStore (svc : RAGServiceState) (vs : VectorStores)
    (patientData : Patient) (rawText : Option String) : Except Unit VectorStores :=
  if svc.noProvider then .ok vs
  else
    let baseText := createPatientText patientData.name patientData.date_of_birth
      patientData.diagnosis patientData.prescription rawText
    match chunkTextS baseText 800 100 with
    | none => .error ()
    | some chunks0 =>
      let chunks := if chunks0.isEmpty then [baseText] else chunks0
      match svc.embedTexts chunks with
      | .error _ => .error ()
      | .ok embeddings =>
        let entries := (List.range chunks.length).map fun i =>
          { id := "patient_" ++ patientData.id ++ "_" ++ toString i
            document := chunks.getD i ""
            metadata := [("patient_id", MetaValue.str patientData.id),
              ("name", MetaValue.str patientData.name),
              ("date_of_birth", MetaValue.str patientData.date_of_birth),
              ("type", MetaValue.str "patient_record"),
              ("chunk_index", MetaValue.int i)]
            embedding := embeddings.getD i [] }
        .ok { vs with patientData := vs.patientData ++ entries }

/-- `RAGService.add_staging_documents` (lines 164-190): with no embedding
provider it logs a warning and returns with the collections untouched;
otherwise it chunks the text, embeds, and appends one entry per chunk to
the staging collection, the caller's sanitized metadata merged in (the
merge is modelled as concatenation; no duplicate keys arise in the
claims). -/
def addStagingDocuments (svc : RAGServiceState) (vs : VectorStores)
    (uploadBatchId : String) (text : String) (metadata : List (String × MetaValue)) :
    Except Unit VectorStores :=
  if svc.noProvider then .ok vs
  else
    match chunkTextS text 800 100 with
    | none => .error ()
    | some chunks0 =>
      let chunks := if chunks0.isEmpty then [text] else chunks0
      match svc.embedTexts chunks with
      | .error _ => .error ()
      | .ok embeddings =>
        let entries := (List.range chunks.length).map fun i =>
          { id := "staging_" ++ uploadBatchId ++ "_" ++ toString i
            document := chunks.getD i ""
            metadata := [("type", MetaValue.str "staging_document"),
              ("upload_batch_id", MetaValue.str uploadBatchId)] ++ metadata ++
              [("chunk_index", MetaValue.int i)]
            embedding := embeddings.getD i [] }
        .ok { vs with patientDataStaging := vs.patientDataStaging ++ entries }

/-- A relational-store row whose name contains "Alice". -/
def patAlice : Patient :=
  { id := "p1", name := "Alice", date_of_birth := "2000-01-01",
    diagnosis := none, prescription := none }

/-- A relational-store row whose name does not contain "Alice" but whose
diagnosis does. -/
def patBob : Patient :=
  { id := "p2", name := "Bob", date_of_birth := "1999-01-01",
    diagnosis := some "Alice syndrome", prescription := none }

/-- A service whose embedding call and both collection queries succeed,
with one staged and one durable hit. -/
def svcBoth : RAGServiceState :=
  { encoderAvailable := true
    remoteEmbedderAvailable := false
    embedTexts := fun ts => .ok (ts.map fun _ => [1])
    stagingQuery := fun _ _ => .ok ⟨["staged"], [[("type", "staging_document")]], [0]⟩
    durableQuery := fun _ _ => .ok ⟨["durable"], [[("type", "patient_record")]], [0]⟩
    patients := [] }

/-- A service whose embedding call raises while the relational store holds
a record the keyword scan matches. -/
def svcEmbedFail : RAGServiceState :=
  { encoderAvailable := true
    remoteEmbedderAvailable := false
    embedTexts := fun _ => .error ()
    stagingQuery := fun _ _ => .ok ⟨[], [], []⟩
    durableQuery := fun _ _ => .ok ⟨[], [], []⟩
    patients := [patAlice] }

/-- A service with no embedding provider over a two-row relational store. -/
def svcNoProvider : RAGServiceState :=
  { encoderAvailable := false
    remoteEmbedderAvailable := false
    embedTexts := fun _ => .error ()
    stagingQuery := fun _ _ => .error ()
    durableQuery := fun _ _ => .error ()
    patients := [patAlice, patBob] }

theorem chunkLoop_spec (s : List Char) (size overlap : Nat) (hov : overlap < size) :
    ∀ fuel start, start < s.length → s.length - start ≤ fuel →
      ∃ c cs, chunkLoop s size overlap fuel start = some (c :: cs) ∧
        c.length = min size (s.length - start) ∧
        reassemble overlap (c :: cs) = s.drop start := by
  intro fuel
  induction fuel with
  | zero => intro start h1 h2; omega
  | succ fuel ih =>
    intro start h1 h2
    by_cases he : min (start + size) s.length = s.length
    · refine ⟨(s.drop start).take (min (start + size) s.length - start), [], ?_, ?_, ?_⟩
      · simp only [chunkLoop, if_pos h1, if_pos he]
      · simp only [List.length_take, List.length_drop]
        omega
      · simp only [reassemble, List.map_nil, List.flatten_nil, List.append_nil, he]
        rw [List.take_of_length_le]
        simp only [List.length_drop]
        omega
    · have hlt : start + size < s.length := by omega
      have hmin : min (start + size) s.length = start + size := by omega
      have h1' : start + size - overlap < s.length := by omega
      have h2' : s.length - (start + size - overlap) ≤ fuel := by omega
      obtain ⟨c', cs', hrun, hlen, hre⟩ := ih (start + size - overlap) h1' h2'
      refine ⟨(s.drop start).take (min (start + size) s.length - start), c' :: cs', ?_, ?_, ?_⟩
      · simp only [chunkLoop, if_pos h1, if_neg he, hmin, hrun]
        rw [if_neg (by omega : ¬ start + size = s.length)]
      · simp only [List.length_take, List.length_drop]
        omega
      · have hss : min (start + size) s.length - start = size := by omega
        rw [hss]
        simp only [reassemble, List.map_cons, List.flatten_cons] at hre ⊢
        have hov' : overlap ≤ c'.length := by omega
        rw [(List.drop_append_of_le_length hov').symm, hre, List.drop_drop]
        have hso : start + size - overlap + overlap = start + size := by omega
        rw [hso]
        calc List.take size (List.drop start s) ++ List.drop (start + size) s
            = List.take size (List.drop start s) ++ List.drop size (List.drop start s) := by
              rw [List.drop_drop]
          _ = List.drop start s := List.take_append_drop ..
theorem asString_data (s : String) : s.data.asString = s := rfl

/-- Claim C6: split("ABCDEFGHIJ", chunkSize=4, overlap=1) returns exactly
["ABCD", "DEFG", "GHIJ"]: the window start advances by 4 - 1 = 3. -/
theorem c6_scenario : chunkTextS "ABCDEFGHIJ" 4 1 = some ["ABCD", "DEFG", "GHIJ"] := by
  decide

/-- Claim C5 counterexample: for T = " a" (two characters, leading space),
split(T, 4, 1) = ["a"], and reassembling gives "a", not T. -/
theorem c5_counterexample :
    chunkText (" a".data) 4 1 = some ["a".data] ∧
      reassemble 1 ["a".data] = "a".data ∧ "a".data ≠ " a".data := by
  decide

/-- Claim C5 amended: reassembling the chunks reconstructs the *sanitized* text
(control characters replaced by spaces, surrounding whitespace stripped),
for all 0 < overlap < size. -/
theorem c5_roundtrip (text : List Char) (size overlap : Nat)
    (h0 : 0 < overlap) (hov : overlap < size) :
    ∃ cs, chunkText text size overlap = some cs ∧
      reassemble overlap cs = sanitizeChunkInput text := by
  by_cases hs : (sanitizeChunkInput text).isEmpty
  · refine ⟨[], ?_, ?_⟩
    · simp [chunkText, hs]
    · rw [List.isEmpty_iff] at hs
      simp [reassemble, hs]
  · rw [List.isEmpty_iff] at hs
    have hlen : 0 < (sanitizeChunkInput text).length := List.length_pos.mpr hs
    obtain ⟨c, cs, hrun, -, hre⟩ :=
      chunkLoop_spec (sanitizeChunkInput text) size overlap hov
        ((sanitizeChunkInput text).length + 1) 0 hlen (by omega)
    refine ⟨c :: cs, ?_, ?_⟩
    · simpa [chunkText, List.isEmpty_iff, hs] using hrun
    · simpa using hre

theorem c5_roundtrip_witness :
    ∃ cs, chunkText ("ABCDEFGHIJ".data) 4 1 = some cs ∧
      reassemble 1 cs = sanitizeChunkInput ("ABCDEFGHIJ".data) :=
  c5_roundtrip ("ABCDEFGHIJ".data) 4 1 (by omega) (by omega)
/-- Claim C7 counterexample: T = " a" has length 2 <= 4 but split(" a", 4, 1)
is ["a"], not [" a"] (the leading space is stripped before splitting). -/
theorem c7_counterexample :
    (" a" : String).length ≤ 4 ∧ chunkTextS " a" 4 1 = some ["a"] ∧
      ("a" : String) ≠ " a" := by
  decide

/-- Claim C7 amended: split of the empty string and of any all-whitespace string
is []; and for nonempty T that is already sanitized (no stripped control
characters or surrounding whitespace), len(T) <= size gives exactly [T]. -/
theorem c7_boundary :
    (∀ size overlap : Nat, chunkTextS "" size overlap = some []) ∧
    (∀ (text : String) (size overlap : Nat), (∀ c ∈ text.data, isPySpace c) →
      chunkTextS text size overlap = some []) ∧
    (∀ (text : String) (size overlap : Nat), sanitizeChunkInput text.data = text.data →
      text ≠ "" → text.length ≤ size → chunkTextS text size overlap = some [text]) := by
  refine ⟨?_, ?_, ?_⟩
  · intro size overlap
    simp [chunkTextS, chunkText, sanitizeChunkInput, pyStrip]
  · intro text size overlap hall
    have hnil : (text.data.map fun c => if isStrippedCtrl c then ' ' else c).dropWhile
        isPySpace = [] := by
      rw [List.dropWhile_eq_nil_iff]
      intro c hc
      obtain ⟨a, ha, rfl⟩ := List.mem_map.mp hc
      by_cases h : isStrippedCtrl a
      · simp [h, isPySpace]
      · simpa [h] using hall a ha
    simp [chunkTextS, chunkText, sanitizeChunkInput, pyStrip, hnil]
  · intro text size overlap hsan hne hlen
    have hd : text.data ≠ [] := fun h => hne (by cases text; simp_all)
    have hpos : 0 < text.data.length := List.length_pos.mpr hd
    have hlen' : text.data.length ≤ size := by
      have : text.length = text.data.length := rfl
      omega
    have hrun : chunkLoop text.data size overlap (text.data.length + 1) 0 =
        some [text.data] := by
      rw [chunkLoop]
      rw [if_pos hpos]
      have hmin : min (0 + size) text.data.length = text.data.length := by omega
      rw [hmin]
      rw [if_pos rfl]
      simp
    simp only [chunkTextS, chunkText, hsan, List.isEmpty_iff, hd, if_neg hd, if_false,
      Option.map_eq_some']
    exact ⟨[text.data], hrun, by simp [asString_data]⟩

/-- Claim C8: with overlap >= chunkSize the walk never advances: on "ABCDE" with
chunkSize = 2, overlap = 2, the loop re-reads start position 0 forever (no
amount of fuel completes it), and the embedded `_chunk_text` yields no
result.  The spec itself records that the source does not guard this. -/
theorem c8_divergence :
    (∀ fuel, chunkLoop (sanitizeChunkInput ("ABCDE".data)) 2 2 fuel 0 = none) ∧
    chunkText ("ABCDE".data) 2 2 = none := by
  constructor
  · intro fuel
    show chunkLoop ("ABCDE".data) 2 2 fuel 0 = none
    induction fuel with
    | zero => rfl
    | succ fuel ih =>
      show (match chunkLoop ("ABCDE".data) 2 2 fuel 0 with
        | none => none
        | some rest => some ((("ABCDE".data).drop 0).take 2 :: rest)) = none
      rw [ih]
  · decide

theorem containsSeg_iff (n : List Char) : ∀ h : List Char, containsSeg n h = true ↔ n <:+: h := by
  intro h
  induction h with
  | nil => simp [containsSeg, List.isPrefixOf_iff_prefix]
  | cons b t ih =>
    rw [containsSeg, Bool.or_eq_true, ih, List.isPrefixOf_iff_prefix, List.infix_cons_iff]

/-- Claim C1: with an embedding provider, a truthy staging batch id, and
both collection queries succeeding with hits, `search_similar_patients`
returns the staging hits, then the durable hits, truncated to `top_k`. -/
theorem c1_staging_priority (svc : RAGServiceState) (query : String) (topK : Nat)
    (batchId : String) (e : List ℚ) (rest : List (List ℚ)) (sr dr : QueryResults)
    (hk : 0 < topK) (hb : batchId ≠ "") (hprov : svc.noProvider = false)
    (hemb : svc.embedTexts [query] = .ok (e :: rest))
    (hsq : svc.stagingQuery e topK = .ok sr)
    (hdq : svc.durableQuery e topK = .ok dr)
    (hsh : queryCollectionHits sr ≠ []) (hdh : queryCollectionHits dr ≠ []) :
    searchSimilarPatients svc query topK (some batchId) =
      (queryCollectionHits sr ++ queryCollectionHits dr).take topK := by
  have hpt : pyTruthy (some batchId) = true := by simp [pyTruthy, hb]
  have hres : queryCollectionHits sr ++ queryCollectionHits dr ≠ [] := by
    simp [hsh]
  simp only [searchSimilarPatients, hprov, Bool.false_eq_true, if_false, hemb, hpt,
    if_true, hsq, Except.map, hdq, List.isEmpty_iff, hres, if_neg hres]

theorem c1_staging_priority_witness :
    searchSimilarPatients svcBoth "q" 2 (some "b") =
      (queryCollectionHits ⟨["staged"], [[("type", "staging_document")]], [0]⟩ ++
        queryCollectionHits ⟨["durable"], [[("type", "patient_record")]], [0]⟩).take 2 :=
  c1_staging_priority svcBoth "q" 2 "b" [1] [] _ _ (by decide) (by decide) rfl rfl rfl rfl
    (by decide) (by decide)

/-- Claim C2 counterexample: the embedding call raises while the
relational store holds a keyword match for the query; the claim says the
keyword scan's matches are still returned, but `search_similar_patients`
returns `[]` (the catch-all returns `[]` without reaching the scan). -/
theorem c2_counterexample :
    searchSimilarPatients svcEmbedFail "alice" 5 none = [] ∧
      sqlFallback svcEmbedFail.patients "alice" 5 = [keywordHit patAlice] := by
  decide

/-- Claim C2 amended: an exception during embedding or either index query
is caught and `retrieve` returns `[]` - it never propagates, but it also
abandons the pipeline, so the keyword scan is not performed. -/
theorem c2_exception_yields_empty (svc : RAGServiceState) (query : String) (topK : Nat)
    (uploadBatchId : Option String) (hprov : svc.noProvider = false) :
    (svc.embedTexts [query] = .error () →
      searchSimilarPatients svc query topK uploadBatchId = []) ∧
    (∀ e rest, svc.embedTexts [query] = .ok (e :: rest) →
      pyTruthy uploadBatchId = true → svc.stagingQuery e topK = .error () →
      searchSimilarPatients svc query topK uploadBatchId = []) ∧
    (∀ e rest sr, svc.embedTexts [query] = .ok (e :: rest) →
      (pyTruthy uploadBatchId = false ∨ svc.stagingQuery e topK = .ok sr) →
      svc.durableQuery e topK = .error () →
      searchSimilarPatients svc query topK uploadBatchId = []) := by
  refine ⟨?_, ?_, ?_⟩
  · intro hemb
    simp [searchSimilarPatients, hprov, hemb]
  · intro e rest hemb hpt hsq
    simp [searchSimilarPatients, hprov, hemb, hpt, hsq, Except.map]
  · intro e rest sr hemb hst hdq
    rcases hst with hpt | hsq
    · simp [searchSimilarPatients, hprov, hemb, hpt, hdq]
    · cases hpt : pyTruthy uploadBatchId
      · simp [searchSimilarPatients, hprov, hemb, hpt, hdq]
      · simp [searchSimilarPatients, hprov, hemb, hpt, hsq, hdq, Except.map]

theorem c2_exception_yields_empty_witness :
    searchSimilarPatients svcEmbedFail "q" 5 none = [] :=
  (c2_exception_yields_empty svcEmbedFail "q" 5 none rfl).1 rfl

theorem sortByScoreDesc_of_const_one (l : List Hit) (h : ∀ x ∈ l, x.similarity_score = 1) :
    sortByScoreDesc l = l := by
  induction l with
  | nil => rfl
  | cons a rest ih =>
    rw [sortByScoreDesc, ih fun x hx => h x (List.mem_cons_of_mem _ hx)]
    cases rest with
    | nil => rfl
    | cons b bs =>
      rw [insertDesc, if_neg]
      rw [h a (List.mem_cons_self ..), h b (List.mem_cons_of_mem _ (List.mem_cons_self ..))]
      simp

theorem sqlFallback_eq_filter_map (patients : List Patient) (query : String) (topK : Nat) :
    sqlFallback patients query topK =
      ((patients.filter (keywordMatch query)).map keywordHit).take topK := by
  have hsc : (patients.filterMap fun p =>
      let score : ℚ := if keywordMatch query p then 1 else 0
      if score > 0 then
        some { content := createPatientText p.name p.date_of_birth p.diagnosis p.prescription none
               metadata := [("patient_id", p.id), ("name", p.name), ("type", "patient_record")]
               similarity_score := score }
      else none) = (patients.filter (keywordMatch query)).map keywordHit := by
    induction patients with
    | nil => rfl
    | cons p ps ih =>
      rw [List.filterMap_cons, List.filter_cons]
      by_cases h : keywordMatch query p
      · simp only [h, if_true, if_pos (by norm_num : (1:ℚ) > 0), List.map_cons, ih]
        rfl
      · simp only [h, if_false, if_neg (by norm_num : ¬ (0:ℚ) > 0), ih]
        rfl
  rw [sqlFallback, hsc, sortByScoreDesc_of_const_one]
  intro x hx
  obtain ⟨p, -, rfl⟩ := List.mem_map.mp hx
  rfl

/-- Claim C3 counterexample: exactly one record's name field contains the
literal query string "Alice", yet the keyword fallback returns two hits -
the second record matches through its diagnosis field, which is part of
the concatenated haystack. -/
theorem c3_counterexample :
    (svcNoProvider.patients.filter fun p => containsSeg ("Alice".data) p.name.data).length
        = 1 ∧
      (searchSimilarPatients svcNoProvider "Alice" 5 none).length = 2 := by
  decide

/-- Claim C3 amended: with no embedding provider, `retrieve` performs the
keyword scan - matches kept in scan order (every kept score is 1.0, so the
stable descending sort is the identity), truncated to `top_k`; if exactly
one record's concatenated fields contain the lower-cased query and
`top_k >= 1`, the result is exactly that record's hit, whose metadata type
is "patient_record". -/
theorem c3_keyword_fallback (svc : RAGServiceState) (query : String) (topK : Nat)
    (uploadBatchId : Option String) (hna : svc.noProvider = true) :
    searchSimilarPatients svc query topK uploadBatchId =
      ((svc.patients.filter (keywordMatch query)).map keywordHit).take topK ∧
    (∀ p, svc.patients.filter (keywordMatch query) = [p] → 0 < topK →
      searchSimilarPatients svc query topK uploadBatchId = [keywordHit p] ∧
      (keywordHit p).metadata.lookup "type" = some "patient_record") := by
  have hmain : searchSimilarPatients svc query topK uploadBatchId =
      ((svc.patients.filter (keywordMatch query)).map keywordHit).take topK := by
    rw [searchSimilarPatients, if_pos hna, sqlFallback_eq_filter_map]
  refine ⟨hmain, fun p hp hk => ⟨?_, rfl⟩⟩
  rw [hmain, hp]
  cases topK with
  | zero => omega
  | succ n => simp

theorem c3_keyword_fallback_witness :
    searchSimilarPatients svcNoProvider "Alice" 5 none =
      ((svcNoProvider.patients.filter (keywordMatch "Alice")).map keywordHit).take 5 ∧
    (∀ p, svcNoProvider.patients.filter (keywordMatch "Alice") = [p] → 0 < 5 →
      searchSimilarPatients svcNoProvider "Alice" 5 none = [keywordHit p] ∧
      (keywordHit p).metadata.lookup "type" = some "patient_record") :=
  c3_keyword_fallback svcNoProvider "Alice" 5 none rfl

theorem recordLabel_eq (i : Nat) (h : Hit) :
    recordLabel i h = ("Record " ++ toString (i + 1) ++ " (") ++
      ((h.metadata.lookup "type").getD "unknown") ++ "): " ++ h.content := rfl

theorem recordLabel_zero (h : Hit) :
    recordLabel 0 h =
      "Record 1 (" ++ ((h.metadata.lookup "type").getD "unknown") ++ "): " ++ h.content := by
  rw [recordLabel_eq]
  rw [show ("Record " ++ toString (0 + 1) ++ " (" : String) = "Record 1 (" from rfl]

theorem recordLabel_one (h : Hit) :
    recordLabel 1 h =
      "Record 2 (" ++ ((h.metadata.lookup "type").getD "unknown") ++ "): " ++ h.content := by
  rw [recordLabel_eq]
  rw [show ("Record " ++ toString (1 + 1) ++ " (" : String) = "Record 2 (" from rfl]

/-- Claim C4 counterexample: the context block assembled from the empty
hit sequence is the empty string, not a "no data available" sentence. -/
theorem c4_counterexample : assembleContext [] = "" := rfl

/-- Claim C4 amended: the empty hit sequence assembles to the empty string
(the generation step then receives an empty context block); a non-empty
sequence is emitted in order as numbered "Record i (type): content"
labels joined with a double newline. -/
theorem c4_assemble_context :
    assembleContext [] = "" ∧
    (∀ h : Hit, assembleContext [h] =
      "Record 1 (" ++ ((h.metadata.lookup "type").getD "unknown") ++ "): " ++ h.content) ∧
    (∀ h1 h2 : Hit, assembleContext [h1, h2] =
      ("Record 1 (" ++ ((h1.metadata.lookup "type").getD "unknown") ++ "): " ++ h1.content
        ++ "\x0a\x0a") ++
      ("Record 2 (" ++ ((h2.metadata.lookup "type").getD "unknown") ++ "): " ++ h2.content)) := by
  refine ⟨rfl, fun h => ?_, fun h1 h2 => ?_⟩
  · calc assembleContext [h] = recordLabel 0 h := rfl
      _ = _ := recordLabel_zero h
  · calc assembleContext [h1, h2]
        = (recordLabel 0 h1 ++ "\x0a\x0a") ++ recordLabel 1 h2 := rfl
      _ = _ := by rw [recordLabel_zero, recordLabel_one]

/-- Claim C9 counterexample: the store's cosine distance ranges over [0,2]
(distance 2 means opposite vectors); at distance 2 the hit's score is
1 - 2 = -1, outside [0,1]. -/
theorem c9_counterexample :
    (queryCollectionHits ⟨["x"], [[]], [2]⟩).map Hit.similarity_score = [-1] ∧
      ¬ (0:ℚ) ≤ -1 := by
  constructor
  · have h1 : queryCollectionHits ⟨["x"], [[]], [2]⟩ =
        [{ content := "x", metadata := [], similarity_score := 1 - 2 }] := rfl
    rw [h1, List.map_cons, List.map_nil]
    norm_num
  · norm_num

/-- Claim C9 amended: each hit's similarity score equals 1 minus the
distance the store reports for it; the score lies in [0,1] exactly when
that distance lies in [0,1] (the code does not clamp it). -/
theorem c9_similarity_score (qr : QueryResults) (i : Nat)
    (hi : i < qr.documents.length) (hd : i < qr.distances.length)
    (hq : i < (queryCollectionHits qr).length) :
    ((queryCollectionHits qr).get ⟨i, hq⟩).similarity_score = 1 - qr.distances.get ⟨i, hd⟩ ∧
    (0 ≤ qr.distances.get ⟨i, hd⟩ → qr.distances.get ⟨i, hd⟩ ≤ 1 →
      0 ≤ ((queryCollectionHits qr).get ⟨i, hq⟩).similarity_score ∧
        ((queryCollectionHits qr).get ⟨i, hq⟩).similarity_score ≤ 1) := by
  have hget : ((queryCollectionHits qr).get ⟨i, hq⟩).similarity_score
      = 1 - qr.distances.get ⟨i, hd⟩ := by
    simp [queryCollectionHits, List.get_eq_getElem, List.getElem_map, List.getElem_range,
      List.getD, List.getElem?_eq_getElem hd]
  refine ⟨hget, fun h0 h1 => ?_⟩
  rw [hget]
  constructor <;> linarith

theorem c9_similarity_score_witness :
    ((queryCollectionHits ⟨["x"], [[]], [1/4]⟩).get ⟨0, by decide⟩).similarity_score =
        1 - (([(1:ℚ)/4]).get ⟨0, by decide⟩) ∧
    (0 ≤ (([(1:ℚ)/4]).get ⟨0, by decide⟩) → (([(1:ℚ)/4]).get ⟨0, by decide⟩) ≤ 1 →
      0 ≤ ((queryCollectionHits ⟨["x"], [[]], [1/4]⟩).get ⟨0, by decide⟩).similarity_score ∧
        ((queryCollectionHits ⟨["x"], [[]], [1/4]⟩).get ⟨0, by decide⟩).similarity_score ≤ 1) :=
  c9_similarity_score ⟨["x"], [[]], [1/4]⟩ 0 (by decide) (by decide) (by decide)

/-- Claim C10: with neither a local encoder nor a remote embedder
configured, both ingestion calls return normally and leave the durable and
staging collections exactly as they were. -/
theorem c10_no_provider_noop (svc : RAGServiceState) (vs : VectorStores) (p : Patient)
    (rawText : Option String) (batchId text : String)
    (metadata : List (String × MetaValue)) (h : svc.noProvider = true) :
    addPatientToVectorStore svc vs p rawText = .ok vs ∧
      addStagingDocuments svc vs batchId text metadata = .ok vs := by
  constructor
  · rw [addPatientToVectorStore, if_pos h]
  · rw [addStagingDocuments, if_pos h]

theorem c10_no_provider_noop_witness :
    addPatientToVectorStore svcNoProvider ⟨[], []⟩ patAlice none = .ok ⟨[], []⟩ ∧
      addStagingDocuments svcNoProvider ⟨[], []⟩ "batch1" "some text" [] = .ok ⟨[], []⟩ :=
  c10_no_provider_noop svcNoProvider ⟨[], []⟩ patAlice none "batch1" "some text" [] rfl

end PatientDB
